import Mathlib

/-!
Shallow embedding of the `serde_literals` crate (src/src/lib.rs): literal
discriminant codecs that bind one constant value (string, 64-bit float,
64-bit signed integer, boolean, character) to a unit marker type, accepting
a decoded wire primitive iff it matches the bound constant and rejecting
everything else with a serde `invalid_value` ("Mismatch") error.

Machine integers are embedded as `Int`/`Nat` with explicit two's-complement
wrap where the source casts; `f64` is embedded as an inductive capturing
exactly the distinctions the source's only float operation (IEEE-754 `==`)
and its `Display` rendering need; Rust `&str` is embedded as Lean `String`
(equality of valid UTF-8 strings is byte-for-byte iff it is char-for-char);
fallible visitor calls return `Except`.
-/

namespace SerdeLiterals

/-- Embedding of Rust `f64` restricted to the operations the source uses on
it: IEEE-754 equality (`==`) and `Display`. NaN payloads are collapsed to one
`nan` (all NaNs compare unequal to everything, themselves included); the two
IEEE zeroes are kept distinct as values because `Display` distinguishes them
while `==` identifies them; every other finite value is carried as its exact
rational value, and infinities by their sign. -/
inductive F64 where
  | nan : F64
  | inf (neg : Bool) : F64
  | negZero : F64
  | posZero : F64
  | finite (q : ℚ) : F64
  deriving DecidableEq

/-- IEEE-754 equality on the `F64` embedding, the meaning of Rust `==` on
`f64`: NaN equals nothing (not even itself), `-0.0 == 0.0`, and any other
two values are equal iff they are the same value. -/
def F64.ieeeEq : F64 → F64 → Bool
  | .nan, _ => false
  | _, .nan => false
  | .inf s, .inf t => s = t
  | .negZero, .negZero => true
  | .negZero, .posZero => true
  | .posZero, .negZero => true
  | .posZero, .posZero => true
  | .finite a, .finite b => a = b
  | _, _ => false

/-- Embedding of Rust `Display` for `f64` at the level of detail the source
needs: a total rendering function. Rust prints NaN as "NaN", the zeroes as
"0" and "-0", infinities as "inf" and "-inf"; the digit string of other
finite values is abstracted as the rendering of their exact rational value. -/
def F64.fmt : F64 → String
  | .nan => "NaN"
  | .inf true => "-inf"
  | .inf false => "inf"
  | .negZero => "-0"
  | .posZero => "0"
  | .finite q => toString q

/-- Embedding of `serde::de::Unexpected`, the kind-tagged rendering of a
received value carried inside an `invalid_value` error. Only the variants
the source can construct are kept. -/
inductive Unexpected where
  | Str (s : String)
  | Float (v : F64)
  | Signed (v : Int)
  | Unsigned (v : Nat)
  | Bool (v : Bool)
  deriving DecidableEq

/-- Embedding of the part of the `serde::de::Error` interface the crate and
its collaborators touch. `invalidValue` embeds `de::Error::invalid_value`,
the "Mismatch" error of the spec: it carries the unexpected received value
and the expected literal's description (the visitor's `expecting` output).
`invalidType` embeds `de::Error::invalid_type`, the shape error the serde
framework itself (never this crate) raises; `custom` stands for every other
error the framework can originate. -/
inductive DeError where
  | invalidValue (unexp : Unexpected) (exp : String)
  | invalidType (unexp : Unexpected) (exp : String)
  | custom (msg : String)
  deriving DecidableEq

/-- Two's-complement reinterpretation of a `u64` value as `i64`: the meaning
of the source's `v as i64` cast at line 85 (wraps for values above
`i64::MAX`). -/
def u64AsI64 (v : Nat) : Int :=
  if v < 2 ^ 63 then (v : Int) else (v : Int) - 2 ^ 64

/-- `LitStr::expecting` (lib.rs lines 14-16): renders "the lit " followed by
the bound constant string. -/
def litStrExpecting (s0 : String) : String := "the lit " ++ s0

/-- `LitStr::visit_str` (lib.rs lines 18-27): accept iff the candidate
equals the bound string, else `invalid_value` with the received string. -/
def litStrVisitStr (s0 s : String) : Except DeError Unit :=
  if s = s0 then .ok ()
  else .error (.invalidValue (.Str s) (litStrExpecting s0))

/-- `LitFloat::expecting` (lib.rs lines 35-37). -/
def litFloatExpecting (c : F64) : String := "the lit " ++ F64.fmt c

/-- `LitFloat::visit_f64` (lib.rs lines 39-48): accept iff the candidate
IEEE-equals the bound float, else `invalid_value` with the received float. -/
def litFloatVisitF64 (c v : F64) : Except DeError Unit :=
  if F64.ieeeEq v c then .ok ()
  else .error (.invalidValue (.Float v) (litFloatExpecting c))

/-- `LitInt::<N>::expecting` (lib.rs lines 66-68); `Int` rendering matches
Rust's decimal `Display` of `i64`. -/
def litIntExpecting (N : Int) : String := "the lit " ++ toString N

/-- `LitInt::<N>::visit_i64` (lib.rs lines 70-79): accept iff the signed
candidate equals the constant, else `invalid_value` tagged `Signed`. -/
def litIntVisitI64 (N v : Int) : Except DeError Unit :=
  if v = N then .ok ()
  else .error (.invalidValue (.Signed v) (litIntExpecting N))

/-- `LitInt::<N>::visit_u64` (lib.rs lines 81-90): accept iff the unsigned
candidate, cast `as i64` (two's-complement wrap), equals the constant, else
`invalid_value` tagged `Unsigned` with the original unsigned value. -/
def litIntVisitU64 (N : Int) (v : Nat) : Except DeError Unit :=
  if u64AsI64 v = N then .ok ()
  else .error (.invalidValue (.Unsigned v) (litIntExpecting N))

/-- `LitBool::<B>::expecting` (lib.rs lines 108-110); `toString` matches
Rust's `Display` of `bool` ("true"/"false"). -/
def litBoolExpecting (B : Bool) : String := "the lit " ++ toString B

/-- `LitBool::<B>::visit_bool` (lib.rs lines 112-121): accept iff the
candidate equals the constant, else `invalid_value` tagged `Bool`. -/
def litBoolVisitBool (B v : Bool) : Except DeError Unit :=
  if v = B then .ok ()
  else .error (.invalidValue (.Bool v) (litBoolExpecting B))

/-- `LitChar::<C>::expecting` (lib.rs lines 139-141); Rust's `Display` of a
`char` writes the character itself. -/
def litCharExpecting (C : Char) : String := "the lit " ++ String.singleton C

/-- Rust `str::starts_with` with a `char` pattern (used in lib.rs line 147):
true iff the string is nonempty and its first character is `c`. -/
def strStartsWithChar (v : String) (c : Char) : Bool :=
  match v.data with
  | [] => false
  | a :: _ => a = c

/-- `LitChar::<C>::visit_str` (lib.rs lines 143-152): accept iff the
delivered string starts with the constant character, else `invalid_value`
with the received string. -/
def litCharVisitStr (C : Char) (v : String) : Except DeError Unit :=
  if strStartsWithChar v C then .ok ()
  else .error (.invalidValue (.Str v) (litCharExpecting C))

/-- Embedding of the `serde::de::Visitor` method table: one method per wire
primitive kind the crate's codecs can receive. A codec's visitor overrides
the methods its `impl Visitor` block defines; the rest keep serde's default
bodies (spelled out at each construction site below). -/
structure SVisitor where
  expecting : String
  visitBool : Bool → Except DeError Unit
  visitI64 : Int → Except DeError Unit
  visitU64 : Nat → Except DeError Unit
  visitF64 : F64 → Except DeError Unit
  visitStr : String → Except DeError Unit
  visitChar : Char → Except DeError Unit

/-- Serde's default `Visitor` method bodies for a visitor describing itself
as `exp`: every non-overridden `visit_*` fails with `invalid_type` carrying
the received value, and the default `visit_char` forwards to `visit_str`
with the one-character string (here: to the default `visit_str`). These
defaults live in the serde framework, not in this crate. -/
def baseVisitor (exp : String) : SVisitor where
  expecting := exp
  visitBool := fun v => .error (.invalidType (.Bool v) exp)
  visitI64 := fun v => .error (.invalidType (.Signed v) exp)
  visitU64 := fun v => .error (.invalidType (.Unsigned v) exp)
  visitF64 := fun v => .error (.invalidType (.Float v) exp)
  visitStr := fun s => .error (.invalidType (.Str s) exp)
  visitChar := fun c => .error (.invalidType (.Str (String.singleton c)) exp)

/-- The `LitStr` visitor: overrides only `visit_str`; `visit_char` is
serde's default, which forwards to the overridden `visit_str`. -/
def litStrSVisitor (s0 : String) : SVisitor :=
  { baseVisitor (litStrExpecting s0) with
    visitStr := litStrVisitStr s0
    visitChar := fun c => litStrVisitStr s0 (String.singleton c) }

/-- The `LitFloat` visitor: overrides only `visit_f64`. -/
def litFloatSVisitor (c : F64) : SVisitor :=
  { baseVisitor (litFloatExpecting c) with
    visitF64 := litFloatVisitF64 c }

/-- The `LitInt::<N>` visitor: overrides `visit_i64` and `visit_u64`. -/
def litIntSVisitor (N : Int) : SVisitor :=
  { baseVisitor (litIntExpecting N) with
    visitI64 := litIntVisitI64 N
    visitU64 := litIntVisitU64 N }

/-- The `LitBool::<B>` visitor: overrides only `visit_bool`. -/
def litBoolSVisitor (B : Bool) : SVisitor :=
  { baseVisitor (litBoolExpecting B) with
    visitBool := litBoolVisitBool B }

/-- The `LitChar::<C>` visitor: overrides only `visit_str`; `visit_char` is
serde's default, which forwards to the overridden `visit_str`. -/
def litCharSVisitor (C : Char) : SVisitor :=
  { baseVisitor (litCharExpecting C) with
    visitStr := litCharVisitStr C
    visitChar := fun c => litCharVisitStr C (String.singleton c) }

/-- One wire value of the serde data model, restricted to the primitive
kinds the crate's serializers can emit and its visitors can receive. -/
inductive WireValue where
  | str (s : String)
  | f64 (v : F64)
  | i64 (v : Int)
  | u64 (v : Nat)
  | bool (b : Bool)
  | char (c : Char)
  deriving DecidableEq

/-- A self-describing decoder (the serde-JSON-style collaborator the crate's
tests use) delivering one wire value to a visitor: the value's own kind
selects the visitor method, as `deserialize_any` does, and as the hinted
`deserialize_str`/`deserialize_f64`/`deserialize_bool`/`deserialize_char`
of a self-describing format also do on every value a codec's own serializer
can produce. -/
def runDe (w : WireValue) (vis : SVisitor) : Except DeError Unit :=
  match w with
  | .str s => vis.visitStr s
  | .f64 v => vis.visitF64 v
  | .i64 v => vis.visitI64 v
  | .u64 v => vis.visitU64 v
  | .bool b => vis.visitBool b
  | .char c => vis.visitChar c

/-- The serde `Deserializer` method a codec's `deserialize` entry point
calls to request the next value. -/
inductive DeMethod where
  | any
  | bool
  | i64
  | u64
  | f64
  | str
  | char
  deriving DecidableEq

/-- The five literal codec kinds of the crate. -/
inductive LitKind where
  | str
  | float
  | int
  | bool
  | char
  deriving DecidableEq

/-- The deserializer method each codec's `deserialize` entry point calls,
read off the source: the `lit_str!` template calls `deserialize_str`
(lib.rs line 164), the `lit_float!` template calls `deserialize_f64`
(line 183), `LitInt::deserialize` calls `deserialize_any` (line 55),
`LitBool::deserialize` calls `deserialize_bool` (line 97), and
`LitChar::deserialize` calls `deserialize_char` (line 128). -/
def codecRequest : LitKind → DeMethod
  | .str => .str
  | .float => .f64
  | .int => .any
  | .bool => .bool
  | .char => .char

/-- Refinement side of claim C6, following the spec's words: the request is
"of the kind matching the codec", namely string for string codecs, f64 for
float codecs, a signed-or-unsigned integer request for integer codecs, bool
for boolean codecs, and the char request for character codecs. -/
def specMatchingRequest : LitKind → DeMethod → Bool
  | .str, m => m = .str
  | .float, m => m = .f64
  | .int, m => m = .i64 || m = .u64
  | .bool, m => m = .bool
  | .char, m => m = .char

/-- Claim C6 amended at the integer codec only: the integer codec requests
the decoder's self-describing any-kind method (`deserialize_any`) rather
than an integer-specific one; the other four codecs request their matching
kind. -/
def amendedMatchingRequest : LitKind → DeMethod → Bool
  | .int, m => m = .any
  | k, m => specMatchingRequest k m

/-- `LitStr` codec serialize (`lit_str!` template, lib.rs line 168:
`serialize_str`). -/
def litStrSerialize (s0 : String) : WireValue := .str s0

/-- `LitFloat` codec serialize (`lit_float!` template, lib.rs line 187:
`serialize_f64`). -/
def litFloatSerialize (c : F64) : WireValue := .f64 c

/-- `LitInt::<N>::serialize` (lib.rs lines 58-60: `serialize_i64(N)`). -/
def litIntSerialize (N : Int) : WireValue := .i64 N

/-- `LitBool::<B>::serialize` (lib.rs lines 100-102: `serialize_bool(B)`). -/
def litBoolSerialize (B : Bool) : WireValue := .bool B

/-- `LitChar::<C>::serialize` (lib.rs lines 131-133: `serialize_char(C)`). -/
def litCharSerialize (C : Char) : WireValue := .char C

/-- `lit_str!` codec deserialize run against one wire value. -/
def litStrDecode (s0 : String) (w : WireValue) : Except DeError Unit :=
  runDe w (litStrSVisitor s0)

/-- `lit_float!` codec deserialize run against one wire value. -/
def litFloatDecode (c : F64) (w : WireValue) : Except DeError Unit :=
  runDe w (litFloatSVisitor c)

/-- `LitInt::<N>::deserialize` run against one wire value. -/
def litIntDecode (N : Int) (w : WireValue) : Except DeError Unit :=
  runDe w (litIntSVisitor N)

/-- `LitBool::<B>::deserialize` run against one wire value. -/
def litBoolDecode (B : Bool) (w : WireValue) : Except DeError Unit :=
  runDe w (litBoolSVisitor B)

/-- `LitChar::<C>::deserialize` run against one wire value. -/
def litCharDecode (C : Char) (w : WireValue) : Except DeError Unit :=
  runDe w (litCharSVisitor C)

/-- NaN on the right never IEEE-equals anything. -/
theorem ieeeEq_nan_right (v : F64) : F64.ieeeEq v F64.nan = false := by
  cases v <;> rfl

/-- C1: an integer codec bound to N accepts a signed 64-bit candidate v iff
v = N and an unsigned 64-bit candidate u iff u reinterpreted as a signed
64-bit integer (two's-complement wrap above i64::MAX) equals N; every
rejection is the Mismatch error tagged with the candidate's
originally-presented signedness. -/
theorem litInt_accepts_exact (N v : Int) (u : Nat)
    (hN : -(2 ^ 63) ≤ N ∧ N < 2 ^ 63) (hv : -(2 ^ 63) ≤ v ∧ v < 2 ^ 63)
    (hu : u < 2 ^ 64) :
    (litIntVisitI64 N v = .ok () ↔ v = N) ∧
    (litIntVisitU64 N u = .ok () ↔ u64AsI64 u = N) ∧
    (litIntVisitI64 N v = .ok () ∨
      litIntVisitI64 N v = .error (.invalidValue (.Signed v) (litIntExpecting N))) ∧
    (litIntVisitU64 N u = .ok () ∨
      litIntVisitU64 N u = .error (.invalidValue (.Unsigned u) (litIntExpecting N))) := by
  refine ⟨?_, ?_, ?_, ?_⟩
  · unfold litIntVisitI64; by_cases h : v = N <;> simp [h]
  · unfold litIntVisitU64; by_cases h : u64AsI64 u = N <;> simp [h]
  · unfold litIntVisitI64; by_cases h : v = N <;> simp [h]
  · unfold litIntVisitU64; by_cases h : u64AsI64 u = N <;> simp [h]

/-- Witness for C1 at N = 123, v = 123, u = 2 ^ 64 - 1 (which wraps to -1). -/
theorem litInt_accepts_exact_witness :
    (litIntVisitI64 123 123 = .ok () ↔ (123 : Int) = 123) ∧
    (litIntVisitU64 123 (2 ^ 64 - 1) = .ok () ↔ u64AsI64 (2 ^ 64 - 1) = 123) ∧
    (litIntVisitI64 123 123 = .ok () ∨
      litIntVisitI64 123 123 = .error (.invalidValue (.Signed 123) (litIntExpecting 123))) ∧
    (litIntVisitU64 123 (2 ^ 64 - 1) = .ok () ∨
      litIntVisitU64 123 (2 ^ 64 - 1) =
        .error (.invalidValue (.Unsigned (2 ^ 64 - 1)) (litIntExpecting 123))) :=
  litInt_accepts_exact 123 123 (2 ^ 64 - 1) (by norm_num) (by norm_num) (by norm_num)

/-- C10: for a candidate value representable as both signed and unsigned
64-bit (0 ≤ u ≤ i64::MAX), the signed and the unsigned acceptance paths of
the integer visitor agree. -/
theorem litInt_signed_unsigned_agree (N : Int) (u : Nat) (hu : u ≤ 2 ^ 63 - 1) :
    (litIntVisitI64 N u = .ok () ↔ litIntVisitU64 N u = .ok ()) := by
  have h : u < 2 ^ 63 := Nat.lt_of_le_of_lt hu (by norm_num)
  unfold litIntVisitI64 litIntVisitU64 u64AsI64
  rw [if_pos h]
  by_cases hc : (u : Int) = N <;> simp [hc]

/-- Witness for C10 at N = 123, u = 123. -/
theorem litInt_signed_unsigned_agree_witness :
    (litIntVisitI64 123 ((123 : Nat) : Int) = .ok () ↔ litIntVisitU64 123 123 = .ok ()) :=
  litInt_signed_unsigned_agree 123 123 (by norm_num)

/-- C2: a character codec bound to C accepts a delivered string iff its
first character is C (trailing characters ignored) — in particular 'z'
accepts both "z" and "zz" — and every other string is rejected with the
Mismatch error carrying the received string. -/
theorem litChar_first_char_match (C : Char) (v : String) :
    (litCharVisitStr C v = .ok () ↔ v.data.head? = some C) ∧
    (litCharVisitStr C v = .ok () ∨
      litCharVisitStr C v = .error (.invalidValue (.Str v) (litCharExpecting C))) ∧
    litCharVisitStr 'z' "z" = .ok () ∧
    litCharVisitStr 'z' "zz" = .ok () := by
  refine ⟨?_, ?_, rfl, rfl⟩
  · obtain ⟨l⟩ := v
    unfold litCharVisitStr strStartsWithChar
    cases l with
    | nil => simp
    | cons a t => by_cases h : a = C <;> simp [h]
  · unfold litCharVisitStr
    by_cases h : strStartsWithChar v C <;> simp [h]

/-- C9: a character codec rejects the empty string, for every bound
constant, with the Mismatch error (no panic, no acceptance). -/
theorem litChar_rejects_empty (c : Char) :
    litCharVisitStr c "" = .error (.invalidValue (.Str "") (litCharExpecting c)) := by
  have h : strStartsWithChar "" c = false := rfl
  unfold litCharVisitStr
  simp [h]

/-- C3: a string codec bound to s0 accepts a candidate s iff s = s0 exactly
(String equality on valid UTF-8 is byte-for-byte equality; no case-folding,
no trimming), and every other candidate yields the Mismatch error carrying
the received string and the visitor's description. -/
theorem litStr_exact_match (s0 s : String) :
    (litStrVisitStr s0 s = .ok () ↔ s = s0) ∧
    (litStrVisitStr s0 s = .ok () ∨
      litStrVisitStr s0 s = .error (.invalidValue (.Str s) (litStrExpecting s0))) := by
  unfold litStrVisitStr
  by_cases h : s = s0 <;> simp [h]

/-- C4: a float codec bound to c accepts a candidate v iff they are equal
under IEEE-754 equality; consequently a codec bound to NaN rejects every
candidate (NaN included), a codec bound to 0.0 accepts -0.0 and vice versa,
and every rejection is the Mismatch error carrying the received float. -/
theorem litFloat_ieee_equality (c v : F64) :
    (litFloatVisitF64 c v = .ok () ↔ F64.ieeeEq v c = true) ∧
    litFloatVisitF64 F64.nan v =
      .error (.invalidValue (.Float v) (litFloatExpecting F64.nan)) ∧
    litFloatVisitF64 F64.posZero F64.negZero = .ok () ∧
    litFloatVisitF64 F64.negZero F64.posZero = .ok () ∧
    (litFloatVisitF64 c v = .ok () ∨
      litFloatVisitF64 c v = .error (.invalidValue (.Float v) (litFloatExpecting c))) := by
  refine ⟨?_, ?_, rfl, rfl, ?_⟩
  · unfold litFloatVisitF64; cases h : F64.ieeeEq v c <;> simp [h]
  · unfold litFloatVisitF64; simp [ieeeEq_nan_right]
  · unfold litFloatVisitF64; cases h : F64.ieeeEq v c <;> simp [h]

/-- C7: a boolean codec bound to B accepts a candidate v iff v = B, rejects
the other boolean with the Mismatch error carrying it, and its decode entry
point requests the boolean primitive from the decoder. -/
theorem litBool_exact_match (B v : Bool) :
    (litBoolVisitBool B v = .ok () ↔ v = B) ∧
    (litBoolVisitBool B v = .ok () ∨
      litBoolVisitBool B v = .error (.invalidValue (.Bool v) (litBoolExpecting B))) ∧
    codecRequest LitKind.bool = DeMethod.bool := by
  refine ⟨?_, ?_, rfl⟩ <;>
    · unfold litBoolVisitBool; by_cases h : v = B <;> simp [h]

/-- C8: every visitor call of the crate either accepts or produces the
invalid-value (Mismatch) error — the only error kind the crate originates
— whose description is "the lit " followed by the rendering of the bound
constant, and whose payload is the received value under its kind tag
(string, float, signed, unsigned, bool). -/
theorem mismatch_only_error :
    (∀ s0 s : String, litStrVisitStr s0 s = .ok () ∨
      litStrVisitStr s0 s = .error (.invalidValue (.Str s) ("the lit " ++ s0))) ∧
    (∀ c v : F64, litFloatVisitF64 c v = .ok () ∨
      litFloatVisitF64 c v = .error (.invalidValue (.Float v) ("the lit " ++ F64.fmt c))) ∧
    (∀ N v : Int, litIntVisitI64 N v = .ok () ∨
      litIntVisitI64 N v = .error (.invalidValue (.Signed v) ("the lit " ++ toString N))) ∧
    (∀ (N : Int) (u : Nat), litIntVisitU64 N u = .ok () ∨
      litIntVisitU64 N u = .error (.invalidValue (.Unsigned u) ("the lit " ++ toString N))) ∧
    (∀ B v : Bool, litBoolVisitBool B v = .ok () ∨
      litBoolVisitBool B v = .error (.invalidValue (.Bool v) ("the lit " ++ toString B))) ∧
    (∀ (C : Char) (v : String), litCharVisitStr C v = .ok () ∨
      litCharVisitStr C v =
        .error (.invalidValue (.Str v) ("the lit " ++ String.singleton C))) := by
  refine ⟨?_, ?_, ?_, ?_, ?_, ?_⟩ <;> intro a b
  · unfold litStrVisitStr; by_cases h : b = a <;> simp [h, litStrExpecting]
  · unfold litFloatVisitF64; cases h : F64.ieeeEq b a <;> simp [h, litFloatExpecting]
  · unfold litIntVisitI64; by_cases h : b = a <;> simp [h, litIntExpecting]
  · unfold litIntVisitU64; by_cases h : u64AsI64 b = a <;> simp [h, litIntExpecting]
  · unfold litBoolVisitBool; by_cases h : b = a <;> simp [h, litBoolExpecting]
  · unfold litCharVisitStr; by_cases h : strStartsWithChar b a <;> simp [h, litCharExpecting]

/-- C5 counterexample: a float codec bound to NaN rejects the very wire
value its own serialize produces, so decode after encode does not succeed
for every bound constant of every kind. -/
theorem round_trip_nan_fails :
    litFloatDecode F64.nan (litFloatSerialize F64.nan) =
      .error (.invalidValue (.Float F64.nan) (litFloatExpecting F64.nan)) := rfl

/-- C5 amended: decode after encode succeeds for every string, integer,
boolean and character constant, and for every float constant except NaN
(whose codec rejects even its own encoding, since NaN is IEEE-unequal to
itself). -/
theorem round_trip :
    (∀ s0 : String, litStrDecode s0 (litStrSerialize s0) = .ok ()) ∧
    (∀ N : Int, litIntDecode N (litIntSerialize N) = .ok ()) ∧
    (∀ B : Bool, litBoolDecode B (litBoolSerialize B) = .ok ()) ∧
    (∀ C : Char, litCharDecode C (litCharSerialize C) = .ok ()) ∧
    (∀ c : F64, litFloatDecode c (litFloatSerialize c) = .ok () ∨ c = F64.nan) := by
  refine ⟨?_, ?_, ?_, ?_, ?_⟩
  · intro s0
    simp [litStrDecode, litStrSerialize, runDe, litStrSVisitor, litStrVisitStr]
  · intro N
    simp [litIntDecode, litIntSerialize, runDe, litIntSVisitor, litIntVisitI64]
  · intro B
    simp [litBoolDecode, litBoolSerialize, runDe, litBoolSVisitor, litBoolVisitBool]
  · intro C
    simp [litCharDecode, litCharSerialize, runDe, litCharSVisitor, litCharVisitStr,
      strStartsWithChar, String.singleton]
  · intro c
    cases c with
    | nan => exact Or.inr rfl
    | inf s =>
      exact Or.inl (by
        simp [litFloatDecode, litFloatSerialize, runDe, litFloatSVisitor,
          litFloatVisitF64, F64.ieeeEq])
    | negZero => exact Or.inl rfl
    | posZero => exact Or.inl rfl
    | finite q =>
      exact Or.inl (by
        simp [litFloatDecode, litFloatSerialize, runDe, litFloatSVisitor,
          litFloatVisitF64, F64.ieeeEq])

/-- C6 counterexample: the integer codec's decode entry point calls the
decoder's self-describing `deserialize_any`, not a signed or unsigned
integer request, so not every codec requests a primitive of the kind
matching the codec. -/
theorem int_codec_requests_any :
    specMatchingRequest LitKind.int (codecRequest LitKind.int) = false := rfl

/-- C6 amended: the string, float, boolean and character codecs each
request exactly the primitive kind matching the codec; the integer codec
instead requests the decoder's self-describing any-kind method and relies
on its visitor implementing only the signed and unsigned integer cases; no
codec attempts a fallback kind (each decode makes exactly one request). -/
theorem codec_request_kinds (k : LitKind) :
    amendedMatchingRequest k (codecRequest k) = true := by
  cases k <;> rfl

end SerdeLiterals
